import Mathlib

/-!
Verification of the authorization-grant subsystem of bk-iam-saas.

This file gives a shallow embedding of the two source files

  * `saas/backend/common/middlewares.py` — the `AppExceptionMiddleware`
    error classifier and the `_one_line_error` validation-detail
    extraction, and
  * `saas/backend/api/authorization/views/resource.py` — the four
    grant/revoke view endpoints,

and proves the specified properties about them.  Collaborators that are
not part of the two source files (the `error_codes` registry, the
`AuthorizationTrans` translator, `AuthViewMixin.grant_or_revoke`, and the
DRF serializer field machinery) are modelled from the specification, as
marked on their doc comments.
-/

namespace BkIam

/-! ## Strings and requests -/

/-- Substring test on character lists: `listHasSub needle hay` holds when
`needle` occurs contiguously inside `hay` (models the Python operator
`needle in hay` on strings). -/
def listHasSub (needle : List Char) : List Char → Bool
  | [] => needle.isEmpty
  | c :: rest => needle.isPrefixOf (c :: rest) || listHasSub needle rest

/-- Substring test on strings (Python `sub in s`). -/
def strHasSub (sub s : String) : Bool :=
  listHasSub sub.toList s.toList

/-- The pieces of a Django request that the middleware consults:
the URL path, the HTTP method and the request parameters
(`getattr(request, request.method, None)` serialized). -/
structure Request where
  path : String
  method : String
  params : String

/-- AppExceptionMiddleware._is_open_api_request:
`"/api/v1/open/" in request.path`. -/
def is_open_api_request (req : Request) : Bool :=
  strHasSub "/api/v1/open/" req.path

/-! ## Validation error details and serializer context

`_one_line_error` walks the `detail` attribute of a DRF
`ValidationError`: a tree of strings, lists and string-keyed
dictionaries. -/

/-- A DRF validation-error detail: a leaf message, a list of details, or
a dictionary from field names to details (insertion-ordered, as Python
dicts are). -/
inductive VDetail where
  | str (s : String)
  | list (items : List VDetail)
  | dict (pairs : List (String × VDetail))

/-- Modelled from the spec: the DRF serializer/field machinery is not
under src/.  A schema node is either a `ListField` with a child schema, a
nested `Serializer` with named fields, or a plain leaf field; each node
may carry a registered human-readable label. -/
inductive Field where
  | listF (label : Option String) (child : Field)
  | nestedS (label : Option String) (fields : List (String × Field))
  | plain (label : Option String)

/-- Python `getattr(serializer, "fields", {})`: only a `Serializer` has a
`fields` attribute. -/
def fieldsOf : Field → List (String × Field)
  | .nestedS _ fs => fs
  | _ => []

/-- The registered label of a schema node. -/
def labelOf : Field → Option String
  | .listF l _ => l
  | .nestedS l _ => l
  | .plain l => l

/-- DRF `ValidationError(detail)` normalization: a bare string becomes a
one-element list; lists and dicts are kept. -/
def normalizeDetail : VDetail → VDetail
  | .str s => .list [.str s]
  | d => d

/-- DRF `api_settings.NON_FIELD_ERRORS_KEY` (default value). -/
def NON_FIELD_ERRORS_KEY : String := "non_field_errors"

mutual

/-- Python `json.dumps` on a validation detail (default separators). -/
def jsonDumps : VDetail → String
  | .str s => "\"" ++ s ++ "\""
  | .list l => "[" ++ jsonDumpsItems l ++ "]"
  | .dict l => "\x7b" ++ jsonDumpsPairs l ++ "\x7d"

/-- Comma-joined serialization of the items of a JSON array. -/
def jsonDumpsItems : List VDetail → String
  | [] => ""
  | [d] => jsonDumps d
  | d :: rest => jsonDumps d ++ ", " ++ jsonDumpsItems rest

/-- Comma-joined serialization of the pairs of a JSON object. -/
def jsonDumpsPairs : List (String × VDetail) → String
  | [] => ""
  | (k, d) :: [] => "\"" ++ k ++ "\": " ++ jsonDumps d
  | (k, d) :: rest => "\"" ++ k ++ "\": " ++ jsonDumps d ++ ", " ++ jsonDumpsPairs rest

end

/-- Python string conversion of a detail as interpolated into the final
message `f"{key}: {error}"`: a leaf message is used verbatim; container
punctuation of non-leaf details is not load-bearing for any claim and is
rendered as JSON. -/
def renderDetail : VDetail → String
  | .str s => s
  | d => jsonDumps d

/-- The tail of `_one_line_error` (middlewares.py lines 214-222), reached
when no recursion into a child schema happened: the `non_field_errors`
special case, the label replacement
`key = exc.serializer.fields[key].label`, and the final
`f"{key}: {error}"`.  Looking up `.fields` on a serializer that is not a
`Serializer` raises `AttributeError` in Python, which is modelled as
`none`.  The label replacement is modelled from the spec: the human label
is preferred over the raw field key when one is registered. -/
def one_line_tail (key : String) (error : VDetail) (sz : Option Field) : Option VDetail :=
  if key = NON_FIELD_ERRORS_KEY then some error
  else
    match sz with
    | none => some (.str (key ++ ": " ++ renderDetail error))
    | some (.nestedS _ fs) =>
        match List.lookup key fs with
        | some f => some (.str ((labelOf f).getD key ++ ": " ++ renderDetail error))
        | none => some (.str (key ++ ": " ++ renderDetail error))
    | some _ => none

/-- middlewares.py `_one_line_error`: extract a one-line message from a
ValidationError whose `detail` is `detail` and whose attached serializer
context is `sz`.  `none` models an uncaught Python exception inside the
extraction (`IndexError` on an empty list, `StopIteration` on an empty
dict, `AttributeError` on a field lookup against a non-serializer) or
exhausted fuel; the recursion depth is bounded by the detail tree, so any
fuel at least the tree depth gives the Python result. -/
def one_line_error : Nat → VDetail → Option Field → Option VDetail
  | 0, _, _ => none
  | _ + 1, .str _, _ => none
  | _ + 1, .list l, _ => l.head?
  | _ + 1, .dict [], _ => none
  | fuel + 1, .dict ((key, error0) :: _), sz =>
      match error0 with
      | .list es =>
          match es.head? with
          | none => none
          | some e => one_line_tail key e sz
      | .str s => one_line_tail key (.str s) sz
      | .dict kvs =>
          match sz with
          | none => one_line_tail key (.dict kvs) sz
          | some szr =>
              match List.lookup key (fieldsOf szr) with
              | some (.listF _ child) =>
                  match kvs.head? with
                  | none => none
                  | some (_, c) => one_line_error fuel (normalizeDetail c) (some child)
              | some (.nestedS lbl fs) =>
                  one_line_error fuel (.dict kvs) (some (.nestedS lbl fs))
              | _ =>
                  match szr with
                  | .listF _ child =>
                      one_line_error fuel (normalizeDetail (.dict kvs)) (some child)
                  | _ => one_line_tail key (.dict kvs) sz

/-! ## Error codes and the exception middleware

`backend/common/error_codes.py` is not under src/: the registry of
`CodeException` entries and its `format` operation are modelled from the
spec (stable code taxonomy; the message of a formatted error carries the
given detail; the status override compares the classified error against
the four listed registry entries). -/

/-- The stable error-code taxonomy of the spec: the named framework
codes plus recognized domain-specific codes (pass-through). -/
inductive ErrCode where
  | UNAUTHORIZED
  | FORBIDDEN
  | METHOD_NOT_ALLOWED
  | JSON_FORMAT_ERROR
  | VALIDATE_ERROR
  | NOT_FOUND_ERROR
  | SYSTEM_ERROR
  | domain (name : String)
deriving DecidableEq

/-- Modelled from the spec: a `CodeException` (error_codes.py, not under
src/) carries a stable code, a client-facing message and a native HTTP
status code. -/
structure CodeException where
  code : ErrCode
  message : String
  status_code : Nat
deriving DecidableEq

/-- Modelled from the spec: `CodeException.format(message=...)` produces
a copy of the registry entry whose message carries the given detail; the
code and the native status are unchanged. -/
def CodeException.format (e : CodeException) (m : String) : CodeException :=
  { e with message := m }

/-- Modelled from the spec: the `error_codes` registry entries consulted
by the middleware (error_codes.py is not under src/). -/
structure ErrorCodes where
  UNAUTHORIZED : CodeException
  FORBIDDEN : CodeException
  METHOD_NOT_ALLOWED : CodeException
  JSON_FORMAT_ERROR : CodeException
  VALIDATE_ERROR : CodeException
  NOT_FOUND_ERROR : CodeException
  SYSTEM_ERROR : CodeException

/-- Well-formedness of a registry: each entry carries its own code. -/
def ErrorCodes.WF (E : ErrorCodes) : Prop :=
  E.UNAUTHORIZED.code = ErrCode.UNAUTHORIZED
  ∧ E.FORBIDDEN.code = ErrCode.FORBIDDEN
  ∧ E.METHOD_NOT_ALLOWED.code = ErrCode.METHOD_NOT_ALLOWED
  ∧ E.JSON_FORMAT_ERROR.code = ErrCode.JSON_FORMAT_ERROR
  ∧ E.VALIDATE_ERROR.code = ErrCode.VALIDATE_ERROR
  ∧ E.NOT_FOUND_ERROR.code = ErrCode.NOT_FOUND_ERROR
  ∧ E.SYSTEM_ERROR.code = ErrCode.SYSTEM_ERROR

/-- A concrete well-formed registry with the usual native statuses, for
evaluating the theorems on closed inputs. -/
def defaultErrorCodes : ErrorCodes where
  UNAUTHORIZED := ⟨ErrCode.UNAUTHORIZED, "unauthorized", 401⟩
  FORBIDDEN := ⟨ErrCode.FORBIDDEN, "forbidden", 403⟩
  METHOD_NOT_ALLOWED := ⟨ErrCode.METHOD_NOT_ALLOWED, "method not allowed", 405⟩
  JSON_FORMAT_ERROR := ⟨ErrCode.JSON_FORMAT_ERROR, "json format error", 400⟩
  VALIDATE_ERROR := ⟨ErrCode.VALIDATE_ERROR, "validate error", 400⟩
  NOT_FOUND_ERROR := ⟨ErrCode.NOT_FOUND_ERROR, "not found", 404⟩
  SYSTEM_ERROR := ⟨ErrCode.SYSTEM_ERROR, "system error", 500⟩

/-- The observable side effects the middleware can trigger:
`set_rollback()`, `log_api_error_trace(request[, True])`,
`logger.error(stack, path, method, params)` and sentry
`capture_exception`. -/
inductive Effect where
  | setRollback
  | logApiErrorTrace (withException : Bool)
  | loggerError (path method params : String)
  | captureException
deriving DecidableEq

/-- The failures the middleware distinguishes (by `isinstance`):
`Http404`, the DRF exception classes with their payloads, a
`CodeException` domain failure, and anything else. -/
inductive Exc where
  | http404
  | notAuthenticated
  | authenticationFailed
  | permissionDenied
  | methodNotAllowed (detail : String)
  | parseError (detail : String)
  | validationError (detail : VDetail) (serializer : Option Field)
  | codeExc (e : CodeException)
  | unexpected (name : String)

/-- Discriminator for the `isinstance(exc, Http404)` test. -/
def Exc.isHttp404 : Exc → Bool
  | .http404 => true
  | _ => false

/-- AppExceptionMiddleware._exception_to_error (middlewares.py lines
107-135).  The result is `some (maybeError, effects)`; the outer `none`
models the middleware itself raising (only possible when
`_one_line_error` raises).  The inner `none` is Python `None`
(unrecognized failure). -/
def exception_to_error (fuel : Nat) (E : ErrorCodes) (req : Request) (exc : Exc) :
    Option (Option CodeException × List Effect) :=
  match exc with
  | .notAuthenticated => some (some E.UNAUTHORIZED, [])
  | .authenticationFailed => some (some E.UNAUTHORIZED, [])
  | .permissionDenied => some (some E.FORBIDDEN, [])
  | .methodNotAllowed d => some (some (E.METHOD_NOT_ALLOWED.format d), [])
  | .parseError d => some (some (E.JSON_FORMAT_ERROR.format d), [])
  | .validationError d sz =>
      if is_open_api_request req then
        some (some (E.VALIDATE_ERROR.format (jsonDumps d)), [])
      else
        match one_line_error fuel d sz with
        | some line => some (some (E.VALIDATE_ERROR.format (renderDetail line)), [])
        | none => none
  | .codeExc e => some (some e, [Effect.setRollback, Effect.logApiErrorTrace false])
  | _ => some (none, [])

/-- Lines 144-165 of process_exception: the classified error, defaulting
an unrecognized failure to `SYSTEM_ERROR` together with its logging,
debug-trace and sentry side effects. -/
def classify (fuel : Nat) (E : ErrorCodes) (req : Request) (exc : Exc) :
    Option (CodeException × List Effect) :=
  match exception_to_error fuel E req exc with
  | none => none
  | some (some err, effs) => some (err, effs)
  | some (none, effs) =>
      some (E.SYSTEM_ERROR,
        effs ++ [Effect.loggerError req.path req.method req.params,
                 Effect.logApiErrorTrace true, Effect.captureException])

/-- The uniform error response: the body fields consulted by the claims
(`code`, `message` from `error.as_json()`) and the HTTP status. -/
structure ErrResponse where
  code : ErrCode
  message : String
  status : Nat
deriving DecidableEq

/-- Modelled from the spec for the membership test: the source compares
the classified error against the four registry entries
`(UNAUTHORIZED, FORBIDDEN, NOT_FOUND_ERROR, SYSTEM_ERROR)` by
`isinstance`; registry entries are distinguished by their stable code. -/
def ignoreCodes : List ErrCode :=
  [ErrCode.UNAUTHORIZED, ErrCode.FORBIDDEN, ErrCode.NOT_FOUND_ERROR, ErrCode.SYSTEM_ERROR]

/-- Lines 167-179 of process_exception: the outgoing response for a
classified error, with the open-API status override to 200. -/
def mkResponse (req : Request) (err : CodeException) : ErrResponse :=
  { code := err.code
    message := err.message
    status :=
      if is_open_api_request req = true ∧ err.code ∉ ignoreCodes then 200
      else err.status_code }

/-- AppExceptionMiddleware.process_exception (middlewares.py lines
137-179): `Http404` passes through unchanged (no response); otherwise
the classified (or defaulted) error is returned as a uniform response
with the open-API status override.  The outer `none` models the
middleware itself raising. -/
def process_exception (fuel : Nat) (E : ErrorCodes) (req : Request) (exc : Exc) :
    Option (Option ErrResponse × List Effect) :=
  if exc.isHttp404 then some (none, [])
  else
    match classify fuel E req exc with
    | none => none
    | some (err, effs) => some (some (mkResponse req err), effs)

/-! ## Authorization grant/revoke views

`resource.py` delegates to two collaborators that are not under src/:
`AuthorizationTrans` (`backend/trans/open_authorization.py`) and
`AuthViewMixin.grant_or_revoke`.  Both are modelled from the spec
(§4.1 PolicyTranslator, §4.2 GrantRevokeCoordinator). -/

/-- The grantee: `Subject(type, id)`. -/
structure Subject where
  type : String
  id : String
deriving DecidableEq

/-- One resource target: a concrete instance (`id` present) or a path
(`id` absent), with its root-to-leaf ancestor chain, scoped to one
system. -/
structure ResourceExpression where
  system : String
  type : String
  id : Option String
  ancestors : List (String × String)
deriving DecidableEq

/-- An in-memory grant/revoke unit for one action. -/
structure PolicyDraft where
  system : String
  action_id : String
  resource_expressions : List ResourceExpression
  expired_at : Nat
deriving DecidableEq

/-- The durable record returned by the policy store. -/
structure StoredPolicy where
  policy_id : Nat
  action_id : String
  subject : Subject
  expired_at : Nat
deriving DecidableEq

/-- The `operate` request field. -/
inductive Operate where
  | grant
  | revoke
deriving DecidableEq

/-- An `{id}` action object from the request body. -/
structure ActionData where
  id : String
deriving DecidableEq

/-- Modelled from the spec: `AuthorizationTrans.to_policy_list_for_instance`
(backend/trans/open_authorization.py, not under src/); §4.1 `forInstance`
produces exactly one draft containing all given instance-scoped resource
expressions under the single action. -/
def to_policy_list_for_instance (system : String) (action_id : String)
    (resources : List ResourceExpression) (expired_at : Nat) : List PolicyDraft :=
  [⟨system, action_id, resources, expired_at⟩]

/-- Modelled from the spec: `AuthorizationTrans.to_policy_list_for_path`
(not under src/); §4.1 `forPath`, identical shape with path-scoped
resources. -/
def to_policy_list_for_path (system : String) (action_id : String)
    (resources : List ResourceExpression) (expired_at : Nat) : List PolicyDraft :=
  [⟨system, action_id, resources, expired_at⟩]

/-- Modelled from the spec: `AuthorizationTrans.to_policy_list_for_instances`
(not under src/); §4.1 `forInstances` fans out one draft per action id,
each carrying the same resource set, preserving action-id order. -/
def to_policy_list_for_instances (system : String) (action_ids : List String)
    (resources : List ResourceExpression) (expired_at : Nat) : List PolicyDraft :=
  action_ids.map fun a => ⟨system, a, resources, expired_at⟩

/-- Modelled from the spec: `AuthorizationTrans.to_policy_list_for_paths`
(not under src/); §4.1 `forPaths`, the same fan-out with path-scoped
resources. -/
def to_policy_list_for_paths (system : String) (action_ids : List String)
    (resources : List ResourceExpression) (expired_at : Nat) : List PolicyDraft :=
  action_ids.map fun a => ⟨system, a, resources, expired_at⟩

/-- Modelled from the spec: `AuthViewMixin.grant_or_revoke` (not under
src/); §4.2 GrantRevokeCoordinator invokes the store primitive for each
draft sequentially in input order, aborts on the first failure, and
returns the stored policies in input draft order.  The store is an
opaque collaborator given as a function; `none` is a store failure. -/
def grant_or_revoke (store : Operate → Subject → PolicyDraft → Option StoredPolicy)
    (op : Operate) (subject : Subject) : List PolicyDraft → Option (List StoredPolicy)
  | [] => some []
  | d :: ds =>
      match store op subject d with
      | none => none
      | some p => (grant_or_revoke store op subject ds).map fun ps => p :: ps

/-- The `{"policy_id": ...}` body of the single-action endpoints. -/
structure SingleResp where
  policy_id : Nat
deriving DecidableEq

/-- The `{"action": {"id": ...}, "policy_id": ...}` items of the batch
endpoints. -/
structure BatchRespItem where
  action_id : String
  policy_id : Nat
deriving DecidableEq

/-- Response assembly of the single-action endpoints:
`{"policy_id": policies[0].policy_id}`; reading `policies[0]` on an
empty list raises, modelled as `none`. -/
def singleResponseOf (policies : List StoredPolicy) : Option SingleResp :=
  policies.head?.map fun p => ⟨p.policy_id⟩

/-- The validated request body shared by the single-action endpoints. -/
structure AuthSingleData where
  operate : Operate
  subject : Subject
  system : String
  expired_at : Nat
  action : ActionData
  resources : List ResourceExpression

/-- The validated request body shared by the batch endpoints. -/
structure AuthBatchData where
  operate : Operate
  subject : Subject
  system : String
  expired_at : Nat
  actions : List ActionData
  resources : List ResourceExpression

/-- AuthInstanceView.post (resource.py lines 51-72): translate to a
policy list, grant or revoke, and answer `{"policy_id": policies[0].policy_id}`. -/
def authInstancePost (store : Operate → Subject → PolicyDraft → Option StoredPolicy)
    (data : AuthSingleData) : Option SingleResp :=
  let policy_list := to_policy_list_for_instance data.system data.action.id data.resources data.expired_at
  (grant_or_revoke store data.operate data.subject policy_list).bind singleResponseOf

/-- AuthPathView.post (resource.py lines 96-117): same shape with the
path translator. -/
def authPathPost (store : Operate → Subject → PolicyDraft → Option StoredPolicy)
    (data : AuthSingleData) : Option SingleResp :=
  let policy_list := to_policy_list_for_path data.system data.action.id data.resources data.expired_at
  (grant_or_revoke store data.operate data.subject policy_list).bind singleResponseOf

/-- AuthBatchInstanceView.post (resource.py lines 141-162): translate the
requested action ids, grant or revoke, and answer one
`{"action": {"id": ...}, "policy_id": ...}` item per stored policy. -/
def authBatchInstancePost (store : Operate → Subject → PolicyDraft → Option StoredPolicy)
    (data : AuthBatchData) : Option (List BatchRespItem) :=
  let action_ids := data.actions.map ActionData.id
  let policy_list := to_policy_list_for_instances data.system action_ids data.resources data.expired_at
  (grant_or_revoke store data.operate data.subject policy_list).map fun policies =>
    policies.map fun p => ⟨p.action_id, p.policy_id⟩

/-- AuthBatchPathView.post (resource.py lines 186-207): same shape with
the paths translator. -/
def authBatchPathPost (store : Operate → Subject → PolicyDraft → Option StoredPolicy)
    (data : AuthBatchData) : Option (List BatchRespItem) :=
  let action_ids := data.actions.map ActionData.id
  let policy_list := to_policy_list_for_paths data.system action_ids data.resources data.expired_at
  (grant_or_revoke store data.operate data.subject policy_list).map fun policies =>
    policies.map fun p => ⟨p.action_id, p.policy_id⟩

/-! ## Concrete inputs used to evaluate the theorems -/

/-- The nested validation detail of the spec example:
`\x7b"resources": \x7b"0": \x7b"id": ["required"]\x7d\x7d\x7d`. -/
def sampleDetail : VDetail :=
  .dict [("resources", .dict [("0", .dict [("id", .list [.str "required"])])])]

/-- The child (item) serializer of the resources list: one field `id`
with an optional registered label. -/
def childSchema (lbl : Option String) : Field :=
  .nestedS none [("id", .plain lbl)]

/-- The request serializer: a `resources` ListField whose child is
`childSchema`. -/
def topSchema (lbl : Option String) : Field :=
  .nestedS none [("resources", .listF none (childSchema lbl))]

/-- A serializer with a nested-serializer field, for the nested-object
recursion case. -/
def subjectSchema : Field :=
  .nestedS none [("subject", childSchema none)]

/-- A request whose path contains the open-API prefix. -/
def wReqOpen : Request :=
  ⟨"/o/api/v1/open/authorization/instance/", "POST", "params"⟩

/-- An internal request (no open-API prefix in the path). -/
def wReqInternal : Request :=
  ⟨"/api/v1/web/policies/", "POST", "params"⟩

/-- A store that always succeeds, echoing the draft's action id. -/
def wStore : Operate → Subject → PolicyDraft → Option StoredPolicy :=
  fun _ _ d => some ⟨7, d.action_id, ⟨"user", "alice"⟩, d.expired_at⟩

/-- A two-action batch request body. -/
def wBatchData : AuthBatchData :=
  ⟨Operate.grant, ⟨"user", "alice"⟩, "bk_cmdb", 4102444800, [⟨"view"⟩, ⟨"edit"⟩], []⟩

/-- A single-action request body. -/
def wSingleData : AuthSingleData :=
  ⟨Operate.grant, ⟨"user", "alice"⟩, "bk_cmdb", 4102444800, ⟨"view"⟩, []⟩

/-- The default registry is well-formed. -/
theorem defaultErrorCodes_WF : ErrorCodes.WF defaultErrorCodes :=
  ⟨rfl, rfl, rfl, rfl, rfl, rfl, rfl⟩

/-! ## Claims -/

/-- C2: on the nested detail `\x7b"resources": \x7b"0": \x7b"id":
["required"]\x7d\x7d\x7d` with the child-schema context attached, the
extraction returns `"id: required"`, or `"<label>: required"` when a
label is registered for `id`; in general a first offending field naming
a list-typed sub-schema recurses into the first nested error under the
child schema, one naming a nested-object sub-schema recurses into the
error under that sub-schema, and a leaf field yields
`"<field-label>: <message>"`, preferring the registered label over the
raw key. -/
theorem one_line_extraction_first_error :
    (∀ lbl fuel, one_line_error (fuel + 2) sampleDetail (some (topSchema lbl))
        = some (.str (lbl.getD "id" ++ ": " ++ "required")))
    ∧ (∀ fuel key k2 c cs rest szr lbl child,
        List.lookup key (fieldsOf szr) = some (.listF lbl child) →
        one_line_error (fuel + 1) (.dict ((key, .dict ((k2, c) :: cs)) :: rest)) (some szr)
          = one_line_error fuel (normalizeDetail c) (some child))
    ∧ (∀ fuel key k2 c cs rest szr lbl fs,
        List.lookup key (fieldsOf szr) = some (.nestedS lbl fs) →
        one_line_error (fuel + 1) (.dict ((key, .dict ((k2, c) :: cs)) :: rest)) (some szr)
          = one_line_error fuel (.dict ((k2, c) :: cs)) (some (.nestedS lbl fs)))
    ∧ (∀ fuel key m ms rest szr lbl,
        key ≠ NON_FIELD_ERRORS_KEY →
        List.lookup key (fieldsOf szr) = some (.plain lbl) →
        one_line_error (fuel + 1) (.dict ((key, .list (m :: ms)) :: rest)) (some szr)
          = some (.str (lbl.getD key ++ ": " ++ renderDetail m))) := by
  refine ⟨?_, ?_, ?_, ?_⟩
  · intro lbl fuel
    cases lbl <;> rfl
  · intro fuel key k2 c cs rest szr lbl child h
    simp [one_line_error, h]
  · intro fuel key k2 c cs rest szr lbl fs h
    simp [one_line_error, h]
  · intro fuel key m ms rest szr lbl hk h
    cases szr with
    | listF l c => simp [fieldsOf] at h
    | plain l => simp [fieldsOf] at h
    | nestedS l fs =>
        simp [one_line_error, one_line_tail, hk, fieldsOf] at h ⊢
        simp [h, labelOf]

/-- Witness for C2: the concrete label and no-label extractions, and the
three general cases instantiated on the sample schemas. -/
theorem one_line_extraction_first_error_witness :
    one_line_error 2 sampleDetail (some (topSchema (some "Resource ID")))
      = some (.str ("Resource ID" ++ ": " ++ "required"))
    ∧ one_line_error 3 sampleDetail (some (topSchema none))
        = one_line_error 2 (normalizeDetail (.dict [("id", .list [.str "required"])]))
            (some (childSchema none))
    ∧ one_line_error 3 (.dict [("subject", .dict [("id", .list [.str "x"])])]) (some subjectSchema)
        = one_line_error 2 (.dict [("id", .list [.str "x"])]) (some (childSchema none))
    ∧ one_line_error 1 (.dict [("id", .list [.str "required"])]) (some (childSchema (some "ID")))
        = some (.str ("ID" ++ ": " ++ renderDetail (.str "required"))) :=
  ⟨one_line_extraction_first_error.1 (some "Resource ID") 0,
   one_line_extraction_first_error.2.1 2 "resources" "0" (.dict [("id", .list [.str "required"])])
     [] [] (topSchema none) none (childSchema none) rfl,
   one_line_extraction_first_error.2.2.1 2 "subject" "id" (.list [.str "x"]) [] [] subjectSchema
     none [("id", .plain none)] rfl,
   one_line_extraction_first_error.2.2.2 0 "id" (.str "required") [] [] (childSchema (some "ID"))
     (some "ID") (by decide) rfl⟩

/-- C10: the extraction requires a non-empty detail: an empty list or an
empty mapping yields no message (the extraction fails); a non-empty list
yields its first element, and a non-empty mapping is decided entirely by
its first key-value pair. -/
theorem one_line_extraction_nonempty_precondition :
    (∀ fuel sz, one_line_error fuel (.list []) sz = none)
    ∧ (∀ fuel sz, one_line_error fuel (.dict []) sz = none)
    ∧ (∀ fuel sz x xs, one_line_error (fuel + 1) (.list (x :: xs)) sz = some x)
    ∧ (∀ fuel sz key e rest, one_line_error fuel (.dict ((key, e) :: rest)) sz
          = one_line_error fuel (.dict [(key, e)]) sz) := by
  refine ⟨?_, ?_, ?_, ?_⟩
  · intro fuel sz; cases fuel <;> rfl
  · intro fuel sz; cases fuel <;> rfl
  · intro fuel sz x xs; rfl
  · intro fuel sz key e rest; cases fuel <;> rfl

/-- C7: a not-found failure (`Http404`) passes through the middleware
unchanged: `process_exception` returns no uniform error-body response
and triggers no side effect, and the classifier does not convert it
either; the check is the first thing `process_exception` does. -/
theorem http404_passthrough :
    ∀ fuel E req,
      process_exception fuel E req Exc.http404 = some (none, [])
      ∧ exception_to_error fuel E req Exc.http404 = some (none, []) := by
  intro fuel E req
  exact ⟨rfl, rfl⟩

/-- C8: unauthenticated failures (`NotAuthenticated` and
`AuthenticationFailed`) are both mapped, by the first test of the
classifier chain, to the registry's `UNAUTHORIZED` error, whose code is
`UNAUTHORIZED` for a well-formed registry. -/
theorem unauthenticated_maps_to_unauthorized :
    ∀ fuel E req,
      exception_to_error fuel E req Exc.notAuthenticated = some (some E.UNAUTHORIZED, [])
      ∧ exception_to_error fuel E req Exc.authenticationFailed = some (some E.UNAUTHORIZED, [])
      ∧ (ErrorCodes.WF E → E.UNAUTHORIZED.code = ErrCode.UNAUTHORIZED) := by
  intro fuel E req
  exact ⟨rfl, rfl, fun h => h.1⟩

/-- Witness for C8 on the default registry and a concrete request. -/
theorem unauthenticated_maps_to_unauthorized_witness :
    exception_to_error 1 defaultErrorCodes wReqInternal Exc.notAuthenticated
      = some (some defaultErrorCodes.UNAUTHORIZED, [])
    ∧ exception_to_error 1 defaultErrorCodes wReqInternal Exc.authenticationFailed
      = some (some defaultErrorCodes.UNAUTHORIZED, [])
    ∧ defaultErrorCodes.UNAUTHORIZED.code = ErrCode.UNAUTHORIZED :=
  ⟨(unauthenticated_maps_to_unauthorized 1 defaultErrorCodes wReqInternal).1,
   (unauthenticated_maps_to_unauthorized 1 defaultErrorCodes wReqInternal).2.1,
   (unauthenticated_maps_to_unauthorized 1 defaultErrorCodes wReqInternal).2.2 defaultErrorCodes_WF⟩

/-- C5: a recognized domain failure (a `CodeException`) is returned by
the classifier unchanged (same code, same message) with exactly two side
effects — transaction rollback and a debug trace capture — and neither
structured logging nor the external error-reporting notification
occurs. -/
theorem domain_failure_passthrough :
    ∀ fuel E req e,
      exception_to_error fuel E req (Exc.codeExc e)
        = some (some e, [Effect.setRollback, Effect.logApiErrorTrace false])
      ∧ process_exception fuel E req (Exc.codeExc e)
        = some (some (mkResponse req e), [Effect.setRollback, Effect.logApiErrorTrace false])
      ∧ (mkResponse req e).code = e.code
      ∧ (mkResponse req e).message = e.message
      ∧ Effect.captureException ∉ [Effect.setRollback, Effect.logApiErrorTrace false]
      ∧ ∀ p m b, Effect.loggerError p m b ∉ [Effect.setRollback, Effect.logApiErrorTrace false] := by
  intro fuel E req e
  refine ⟨rfl, rfl, rfl, rfl, by decide, ?_⟩
  intro p m b h
  simp at h

/-- Witness for C5 on a concrete domain failure. -/
theorem domain_failure_passthrough_witness :
    exception_to_error 1 defaultErrorCodes wReqOpen
        (Exc.codeExc ⟨ErrCode.domain "conflict", "already exists", 409⟩)
      = some (some ⟨ErrCode.domain "conflict", "already exists", 409⟩,
          [Effect.setRollback, Effect.logApiErrorTrace false]) :=
  (domain_failure_passthrough 1 defaultErrorCodes wReqOpen
    ⟨ErrCode.domain "conflict", "already exists", 409⟩).1

/-- C1: for every classified failure, on an open-API request whose
classified code is none of UNAUTHORIZED, FORBIDDEN, NOT_FOUND,
SYSTEM_ERROR the response status is overridden to 200 while the body
keeps the error code and message; on an internal request, or when the
code is one of the four, the response carries the error's native status
code. -/
theorem open_api_status_override :
    ∀ fuel E req exc err effs,
      Exc.isHttp404 exc = false →
      classify fuel E req exc = some (err, effs) →
      ((is_open_api_request req = true → err.code ∉ ignoreCodes →
          process_exception fuel E req exc = some (some ⟨err.code, err.message, 200⟩, effs))
       ∧ (is_open_api_request req = false →
          process_exception fuel E req exc
            = some (some ⟨err.code, err.message, err.status_code⟩, effs))
       ∧ (err.code ∈ ignoreCodes →
          process_exception fuel E req exc
            = some (some ⟨err.code, err.message, err.status_code⟩, effs))) := by
  intro fuel E req exc err effs h404 hcl
  have hp : process_exception fuel E req exc = some (some (mkResponse req err), effs) := by
    simp [process_exception, h404, hcl]
  refine ⟨?_, ?_, ?_⟩
  · intro ho hn
    rw [hp]
    simp [mkResponse, ho, hn]
  · intro ho
    rw [hp]
    simp [mkResponse, ho]
  · intro hi
    rw [hp]
    simp [mkResponse, hi]

/-- Witness for C1: a method-not-allowed failure on an open-API request
gets status 200 with the error body; the same failure on an internal
request gets the native 405. -/
theorem open_api_status_override_witness :
    process_exception 1 defaultErrorCodes wReqOpen (Exc.methodNotAllowed "PUT")
      = some (some ⟨ErrCode.METHOD_NOT_ALLOWED, "PUT", 200⟩, [])
    ∧ process_exception 1 defaultErrorCodes wReqInternal (Exc.methodNotAllowed "PUT")
      = some (some ⟨ErrCode.METHOD_NOT_ALLOWED, "PUT", 405⟩, []) :=
  ⟨(open_api_status_override 1 defaultErrorCodes wReqOpen (Exc.methodNotAllowed "PUT")
      (defaultErrorCodes.METHOD_NOT_ALLOWED.format "PUT") [] rfl rfl).1 rfl (by decide),
   (open_api_status_override 1 defaultErrorCodes wReqInternal (Exc.methodNotAllowed "PUT")
      (defaultErrorCodes.METHOD_NOT_ALLOWED.format "PUT") [] rfl rfl).2.1 rfl⟩

/-- C4: a field-validation failure is classified as the registry's
VALIDATE_ERROR (so its code is `VALIDATE_ERROR` for a well-formed
registry, and `format` keeps the code); on an open-API request the
message is the whole structured detail serialized as JSON, and on an
internal request it is the single line produced by the recursive
first-error extraction. -/
theorem validation_error_message_by_caller :
    ∀ fuel E req d sz,
      (is_open_api_request req = true →
         exception_to_error fuel E req (Exc.validationError d sz)
           = some (some (E.VALIDATE_ERROR.format (jsonDumps d)), []))
      ∧ (is_open_api_request req = false → ∀ v, one_line_error fuel d sz = some v →
         exception_to_error fuel E req (Exc.validationError d sz)
           = some (some (E.VALIDATE_ERROR.format (renderDetail v)), []))
      ∧ (∀ m, (CodeException.format E.VALIDATE_ERROR m).code = E.VALIDATE_ERROR.code)
      ∧ (ErrorCodes.WF E → E.VALIDATE_ERROR.code = ErrCode.VALIDATE_ERROR) := by
  intro fuel E req d sz
  refine ⟨?_, ?_, fun m => rfl, fun h => h.2.2.2.2.1⟩
  · intro h
    simp [exception_to_error, h]
  · intro h v hv
    simp [exception_to_error, h, hv]

/-- Witness for C4 on the sample detail: JSON serialization of the whole
detail for the open-API caller, the extracted single line for the
internal caller. -/
theorem validation_error_message_by_caller_witness :
    exception_to_error 5 defaultErrorCodes wReqOpen
        (Exc.validationError sampleDetail (some (topSchema none)))
      = some (some (defaultErrorCodes.VALIDATE_ERROR.format (jsonDumps sampleDetail)), [])
    ∧ exception_to_error 5 defaultErrorCodes wReqInternal
        (Exc.validationError sampleDetail (some (topSchema none)))
      = some (some (defaultErrorCodes.VALIDATE_ERROR.format (renderDetail (.str "id: required"))), [])
    ∧ defaultErrorCodes.VALIDATE_ERROR.code = ErrCode.VALIDATE_ERROR :=
  ⟨(validation_error_message_by_caller 5 defaultErrorCodes wReqOpen sampleDetail
      (some (topSchema none))).1 rfl,
   (validation_error_message_by_caller 5 defaultErrorCodes wReqInternal sampleDetail
      (some (topSchema none))).2.1 rfl (.str "id: required") rfl,
   (validation_error_message_by_caller 5 defaultErrorCodes wReqInternal sampleDetail
      (some (topSchema none))).2.2.2 defaultErrorCodes_WF⟩

/-- C6: an unrecognized failure is downgraded to the registry's generic
SYSTEM_ERROR — the response never carries the original exception's
content and keeps the native status even on an open-API request — and
this category alone triggers the structured log of path/method/params,
the debug trace capture and the external error-reporting notification;
no other category emits the error-reporting notification. -/
theorem unexpected_system_error_reporting :
    ∀ fuel E req n, ErrorCodes.WF E →
      (process_exception fuel E req (Exc.unexpected n)
        = some (some ⟨ErrCode.SYSTEM_ERROR, E.SYSTEM_ERROR.message, E.SYSTEM_ERROR.status_code⟩,
            [Effect.loggerError req.path req.method req.params,
             Effect.logApiErrorTrace true, Effect.captureException]))
      ∧ (∀ exc resp effs, process_exception fuel E req exc = some (resp, effs) →
          Effect.captureException ∈ effs → ∃ m, exc = Exc.unexpected m) := by
  intro fuel E req n hWF
  have h7 : E.SYSTEM_ERROR.code = ErrCode.SYSTEM_ERROR := hWF.2.2.2.2.2.2
  constructor
  · simp [process_exception, classify, exception_to_error, Exc.isHttp404, mkResponse, h7,
      ignoreCodes]
  · intro exc resp effs hp hmem
    cases exc with
    | http404 =>
        simp [process_exception, Exc.isHttp404] at hp
        rw [hp.2] at hmem
        simp at hmem
    | notAuthenticated =>
        simp [process_exception, classify, exception_to_error, Exc.isHttp404] at hp
        rw [hp.2] at hmem
        simp at hmem
    | authenticationFailed =>
        simp [process_exception, classify, exception_to_error, Exc.isHttp404] at hp
        rw [hp.2] at hmem
        simp at hmem
    | permissionDenied =>
        simp [process_exception, classify, exception_to_error, Exc.isHttp404] at hp
        rw [hp.2] at hmem
        simp at hmem
    | methodNotAllowed d =>
        simp [process_exception, classify, exception_to_error, Exc.isHttp404] at hp
        rw [hp.2] at hmem
        simp at hmem
    | parseError d =>
        simp [process_exception, classify, exception_to_error, Exc.isHttp404] at hp
        rw [hp.2] at hmem
        simp at hmem
    | validationError d sz =>
        simp only [process_exception, classify, exception_to_error, Exc.isHttp404,
          Bool.false_eq_true, if_false] at hp
        cases hob : is_open_api_request req with
        | true =>
            rw [hob] at hp
            simp at hp
            rw [hp.2] at hmem
            simp at hmem
        | false =>
            rw [hob] at hp
            cases hol : one_line_error fuel d sz with
            | none =>
                rw [hol] at hp
                simp at hp
            | some v =>
                rw [hol] at hp
                simp at hp
                rw [hp.2] at hmem
                simp at hmem
    | codeExc e =>
        simp [process_exception, classify, exception_to_error, Exc.isHttp404] at hp
        rw [← hp.2] at hmem
        simp at hmem
    | unexpected m => exact ⟨m, rfl⟩

/-- Witness for C6 on the default registry: an unexpected failure on an
open-API request still answers with the native 500 status and the full
reporting side effects. -/
theorem unexpected_system_error_reporting_witness :
    process_exception 1 defaultErrorCodes wReqOpen (Exc.unexpected "ZeroDivisionError")
      = some (some ⟨ErrCode.SYSTEM_ERROR, defaultErrorCodes.SYSTEM_ERROR.message,
            defaultErrorCodes.SYSTEM_ERROR.status_code⟩,
          [Effect.loggerError wReqOpen.path wReqOpen.method wReqOpen.params,
           Effect.logApiErrorTrace true, Effect.captureException]) :=
  (unexpected_system_error_reporting 1 defaultErrorCodes wReqOpen "ZeroDivisionError"
    defaultErrorCodes_WF).1

/-- When every store call echoes its draft's action id, a successful
grant-or-revoke batch returns stored policies whose action-id sequence
equals the drafts' action-id sequence. -/
theorem grant_or_revoke_action_ids
    (store : Operate → Subject → PolicyDraft → Option StoredPolicy)
    (hstore : ∀ op s d p, store op s d = some p → p.action_id = d.action_id)
    (op : Operate) (subject : Subject) :
    ∀ ds ps, grant_or_revoke store op subject ds = some ps →
      ps.map StoredPolicy.action_id = ds.map PolicyDraft.action_id := by
  intro ds
  induction ds with
  | nil =>
      intro ps h
      simp [grant_or_revoke] at h
      rw [h]
      rfl
  | cons d ds ih =>
      intro ps h
      simp only [grant_or_revoke] at h
      cases hs : store op subject d with
      | none => rw [hs] at h; simp at h
      | some p =>
          rw [hs] at h
          cases hr : grant_or_revoke store op subject ds with
          | none => rw [hr] at h; simp at h
          | some ps2 =>
              rw [hr] at h
              simp at h
              rw [← h]
              simp [List.map, ih ps2 hr, hstore op subject d p hs]

/-- The batch response items of a successful batch call carry exactly
the drafts' action ids, in order. -/
theorem batch_items_action_ids
    (store : Operate → Subject → PolicyDraft → Option StoredPolicy)
    (hstore : ∀ op s d p, store op s d = some p → p.action_id = d.action_id)
    (op : Operate) (subject : Subject) (ds : List PolicyDraft) (items : List BatchRespItem)
    (h : (grant_or_revoke store op subject ds).map
        (fun policies => policies.map fun p => (⟨p.action_id, p.policy_id⟩ : BatchRespItem))
        = some items) :
    items.map BatchRespItem.action_id = ds.map PolicyDraft.action_id := by
  cases hr : grant_or_revoke store op subject ds with
  | none => rw [hr] at h; simp at h
  | some ps =>
      rw [hr] at h
      simp at h
      rw [← h]
      rw [List.map_map]
      exact grant_or_revoke_action_ids store hstore op subject ds ps hr

/-- C3: for every batch request with at least one requested action, when
the store returns each draft's policy (so grant-or-revoke yields stored
policies in draft order), both batch endpoints answer an ordered list of
one item per requested action whose action-id sequence equals the
requested action-id sequence. -/
theorem batch_response_order_matches_requested :
    ∀ (store : Operate → Subject → PolicyDraft → Option StoredPolicy) (data : AuthBatchData)
      (items : List BatchRespItem),
      (∀ op s d p, store op s d = some p → p.action_id = d.action_id) →
      1 ≤ data.actions.length →
      ((authBatchInstancePost store data = some items →
          items.length = data.actions.length
          ∧ items.map BatchRespItem.action_id = data.actions.map ActionData.id)
       ∧ (authBatchPathPost store data = some items →
          items.length = data.actions.length
          ∧ items.map BatchRespItem.action_id = data.actions.map ActionData.id)) := by
  intro store data items hstore _hN
  have hdraftsI : (to_policy_list_for_instances data.system (data.actions.map ActionData.id)
      data.resources data.expired_at).map PolicyDraft.action_id
      = data.actions.map ActionData.id := by
    simp [to_policy_list_for_instances, List.map_map]
  have hdraftsP : (to_policy_list_for_paths data.system (data.actions.map ActionData.id)
      data.resources data.expired_at).map PolicyDraft.action_id
      = data.actions.map ActionData.id := by
    simp [to_policy_list_for_paths, List.map_map]
  constructor
  · intro h
    have hids := batch_items_action_ids store hstore data.operate data.subject _ items h
    rw [hdraftsI] at hids
    refine ⟨?_, hids⟩
    have := congrArg List.length hids
    simpa using this
  · intro h
    have hids := batch_items_action_ids store hstore data.operate data.subject _ items h
    rw [hdraftsP] at hids
    refine ⟨?_, hids⟩
    have := congrArg List.length hids
    simpa using this

/-- Witness for C3 on a concrete two-action batch against the echoing
store. -/
theorem batch_response_order_matches_requested_witness :
    ([⟨"view", 7⟩, ⟨"edit", 7⟩] : List BatchRespItem).length = wBatchData.actions.length
    ∧ ([⟨"view", 7⟩, ⟨"edit", 7⟩] : List BatchRespItem).map BatchRespItem.action_id
        = wBatchData.actions.map ActionData.id :=
  (batch_response_order_matches_requested wStore wBatchData [⟨"view", 7⟩, ⟨"edit", 7⟩]
    (fun op s d p h => by cases h; rfl) (by decide)).1 rfl

/-- C9: a single-action endpoint success response is built from the
first stored policy: a `\x7bpolicy_id\x7d` body is produced exactly when
the policy list is non-empty, carrying the first policy's id; an empty
list makes the request fail instead of answering a success body. -/
theorem single_response_first_policy :
    ∀ (store : Operate → Subject → PolicyDraft → Option StoredPolicy) (data : AuthSingleData),
      (∀ resp, authInstancePost store data = some resp →
         ∃ p ps, grant_or_revoke store data.operate data.subject
             (to_policy_list_for_instance data.system data.action.id data.resources data.expired_at)
             = some (p :: ps) ∧ resp.policy_id = p.policy_id)
      ∧ (∀ resp, authPathPost store data = some resp →
         ∃ p ps, grant_or_revoke store data.operate data.subject
             (to_policy_list_for_path data.system data.action.id data.resources data.expired_at)
             = some (p :: ps) ∧ resp.policy_id = p.policy_id)
      ∧ singleResponseOf [] = none
      ∧ (∀ p ps, singleResponseOf (p :: ps) = some ⟨p.policy_id⟩) := by
  intro store data
  refine ⟨?_, ?_, rfl, fun p ps => rfl⟩
  · intro resp h
    simp only [authInstancePost] at h
    cases hr : grant_or_revoke store data.operate data.subject
        (to_policy_list_for_instance data.system data.action.id data.resources data.expired_at) with
    | none => rw [hr] at h; simp at h
    | some ps =>
        rw [hr] at h
        cases ps with
        | nil => simp [singleResponseOf] at h
        | cons p ps =>
            refine ⟨p, ps, rfl, ?_⟩
            simp [singleResponseOf] at h
            rw [← h]
  · intro resp h
    simp only [authPathPost] at h
    cases hr : grant_or_revoke store data.operate data.subject
        (to_policy_list_for_path data.system data.action.id data.resources data.expired_at) with
    | none => rw [hr] at h; simp at h
    | some ps =>
        rw [hr] at h
        cases ps with
        | nil => simp [singleResponseOf] at h
        | cons p ps =>
            refine ⟨p, ps, rfl, ?_⟩
            simp [singleResponseOf] at h
            rw [← h]

/-- Witness for C9 on a concrete single-action request against the
echoing store. -/
theorem single_response_first_policy_witness :
    ∃ p ps, grant_or_revoke wStore wSingleData.operate wSingleData.subject
        (to_policy_list_for_instance wSingleData.system wSingleData.action.id
          wSingleData.resources wSingleData.expired_at)
        = some (p :: ps) ∧ (⟨7⟩ : SingleResp).policy_id = p.policy_id :=
  (single_response_first_policy wStore wSingleData).1 ⟨7⟩ rfl

end BkIam
